import Mathlib

/-!
Verification development for the flipfoundry2 repository.

The repository has two components:
* `src/backend/server.py` — a FastAPI forwarding shim (`proxy`) that relays
  every inbound request to a fixed Next.js upstream origin;
* `src/backend_test.py` — a probe script (`FlipFoundryAPITester` and `main`)
  that issues a fixed sequence of HTTP probes and counts passes and failures.

Both are shallowly embedded below: the handler becomes a pure function from
the inbound request and an upstream oracle to a result plus a log of the
outbound requests it issued; the probe script becomes explicit state passing
over the tester counters.
-/

/-! ### Forwarder: embedding of src/backend/server.py -/

/-- Source: `NEXTJS_URL = "http://127.0.0.1:3000"` — the fixed upstream origin. -/
def NEXTJS_URL : String := "http://127.0.0.1:3000"

/-- An inbound HTTP request as the handler observes it through Starlette.
`path` is the `\x7bpath:path\x7d` route capture (the inbound path without
its leading slash and without the query string); `queryParams` is the parsed
query string as the ordered list of key/value pairs (`request.query_params`,
duplicates preserved); `headers` is the header mapping `dict(request.headers)`
(Starlette normalises header names to lowercase and the mapping view holds
one entry per name); `body` is `await request.body()`. -/
structure HttpRequest where
  method : String
  path : String
  queryParams : List (String × String)
  headers : List (String × String)
  body : String
deriving DecidableEq, Repr

/-- Python `dict` membership test on an association list. -/
def hasKey (d : List (String × String)) (k : String) : Bool :=
  d.any (fun kv => kv.1 == k)

/-- One step of Python `dict` construction: a repeated key keeps its original
position and is updated to the new value; a fresh key is appended. -/
def dictInsert (d : List (String × String)) (k v : String) :
    List (String × String) :=
  if hasKey d k then d.map (fun kv => if kv.1 == k then (k, v) else kv)
  else d ++ [(k, v)]

/-- Python `dict(pairs)`: keys in order of first occurrence, each mapped to
the last value given for it.  This models `dict(request.query_params)` in
the handler (Starlette `QueryParams` iterates the pairs in query-string
order; `dict` collapses repeated keys, last value winning). -/
def dictOfPairs (ps : List (String × String)) : List (String × String) :=
  ps.foldl (fun d kv => dictInsert d kv.1 kv.2) []

/-- The single outbound request the handler hands to `client.request`:
method, url, headers, content and params keyword arguments. -/
structure OutboundRequest where
  method : String
  url : String
  headers : List (String × String)
  content : String
  params : List (String × String)
deriving DecidableEq, Repr

/-- An upstream (httpx) response as the handler reads it: `status_code`,
`headers.items()` (httpx exposes lowercase names) and `content`. -/
structure UpstreamResponse where
  status_code : Nat
  headers : List (String × String)
  content : String
deriving DecidableEq, Repr

/-- The response value the handler returns (a FastAPI `Response`): content,
status code, headers, and the `media_type` keyword when given. -/
structure ProxyResponse where
  status_code : Nat
  headers : List (String × String)
  body : String
  mediaType : Option String
deriving DecidableEq, Repr

/-- Outcome of the single `await client.request(...)` call: a response,
an `httpx.ConnectError` (connection refused), or any other transport
error (for example a timeout), which the source does not catch. -/
inductive UpstreamResult where
  | ok (resp : UpstreamResponse)
  | connectError
  | transportError (e : String)
deriving DecidableEq, Repr

/-- Source: `excluded_headers = \x7b"transfer-encoding", "content-encoding",
"content-length"\x7d`. -/
def excluded_headers : List String :=
  ["transfer-encoding", "content-encoding", "content-length"]

/-- The fixed 503 error body returned when the upstream connection is
refused. -/
def notReadyBody : String := "\x7b\"error\":\"Next.js server not ready\"\x7d"

/-- The fixed 503 response: `Response(content=..., status_code=503,
media_type="application/json")`. -/
def notReadyResponse : ProxyResponse :=
  { status_code := 503, headers := [], body := notReadyBody
    mediaType := some "application/json" }

/-- The outbound request the handler builds from the inbound one:
`url = f"\x7bNEXTJS_URL\x7d/\x7bpath\x7d"`; `headers = dict(request.headers)`
with `headers.pop("host", None)`; `content = body`;
`params = dict(request.query_params)`. -/
def buildOutboundRequest (req : HttpRequest) : OutboundRequest :=
  { method := req.method
    url := NEXTJS_URL ++ "/" ++ req.path
    headers := req.headers.filter (fun kv => kv.1 != "host")
    content := req.body
    params := dictOfPairs req.queryParams }

/-- The success-path response: upstream content and status code pass through;
response headers are the upstream headers with keys whose `k.lower()` is in
`excluded_headers` dropped; no `media_type` keyword is given. -/
def forwardResponse (resp : UpstreamResponse) : ProxyResponse :=
  { status_code := resp.status_code
    headers := resp.headers.filter
      (fun kv => !(excluded_headers.contains kv.1.toLower))
    body := resp.content
    mediaType := none }

/-- The handler `proxy(path, request)`.  `upstream` is the oracle for the
single `client.request` call.  The second component logs every outbound
request issued during the call.  `Except.error` models an exception
propagating out of the handler uncaught. -/
def proxy (upstream : OutboundRequest → UpstreamResult) (req : HttpRequest) :
    Except String ProxyResponse × List OutboundRequest :=
  match upstream (buildOutboundRequest req) with
  | .ok resp => (.ok (forwardResponse resp), [buildOutboundRequest req])
  | .connectError => (.ok notReadyResponse, [buildOutboundRequest req])
  | .transportError e => (.error e, [buildOutboundRequest req])

/-- The methods the FastAPI route accepts:
`methods=["GET", "POST", "PUT", "DELETE", "PATCH", "OPTIONS"]`. -/
def supportedMethods : List String :=
  ["GET", "POST", "PUT", "DELETE", "PATCH", "OPTIONS"]

/-! ### Probe script: embedding of src/backend_test.py -/

/-- Outcome of one `requests` call made by the probe script: a response with
its status code together with the JSON payload when `response.json()`
parses (`some j`) or `none` when parsing raises; a
`requests.exceptions.Timeout`; or any other exception with its message. -/
inductive ProbeOutcome where
  | status (code : Nat) (json : Option String)
  | timeout
  | exn (msg : String)
deriving DecidableEq, Repr

/-- The data component of `run_test` return values: `empty` is the Python
`\x7b\x7d`, `parsed j` is the parsed `response_json`. -/
inductive RunData where
  | empty
  | parsed (j : String)
deriving DecidableEq, Repr

/-- The mutable counters of `FlipFoundryAPITester`. -/
structure TesterState where
  tests_run : Nat
  tests_passed : Nat
  failed_tests : List String
deriving DecidableEq, Repr

/-- `__init__`: `tests_run = 0`, `tests_passed = 0`, `failed_tests = []`. -/
def initialTester : TesterState :=
  { tests_run := 0, tests_passed := 0, failed_tests := [] }

/-- The methods `run_test` dispatches on in its if/elif chain. -/
def probeMethods : List String := ["GET", "POST", "PUT", "DELETE"]

/-- `FlipFoundryAPITester.run_test(name, method, endpoint, expected_status)`
given the outcome of the one `requests` call it would make.  `tests_run` is
incremented before the try block.  For a method outside the if/elif chain no
request is made and the local `response` is unbound, so reading
`response.status_code` raises, the generic `except Exception` handler
records the failure, and `(False, \x7b\x7d)` is returned. -/
def run_test (st : TesterState) (name method : String) (expected : Nat)
    (outcome : ProbeOutcome) : (Bool × RunData) × TesterState :=
  let st1 : TesterState := { st with tests_run := st.tests_run + 1 }
  if probeMethods.contains method then
    match outcome with
    | .status code js =>
      if code = expected then
        ((true, match js with | some j => .parsed j | none => .empty),
         { st1 with tests_passed := st1.tests_passed + 1 })
      else
        ((false, .empty),
         { st1 with failed_tests := st1.failed_tests ++
            [name ++ ": Expected " ++ toString expected ++ ", got " ++
              toString code] })
    | .timeout =>
      ((false, .empty),
       { st1 with failed_tests := st1.failed_tests ++
          [name ++ ": Request timed out"] })
    | .exn e =>
      ((false, .empty),
       { st1 with failed_tests := st1.failed_tests ++ [name ++ ": " ++ e] })
  else
    ((false, .empty),
     { st1 with failed_tests := st1.failed_tests ++
        [name ++ ": UnboundLocalError"] })

/-- `test_search_invalid_json`: posts a malformed body itself, counts the
probe as passed exactly when the status is 400, increments `tests_run` on
every path (after the status check on the normal path, in the handler on the
exception path), and never raises.  A `Timeout` here is caught by the
generic `except Exception` handler. -/
def test_search_invalid_json (st : TesterState) (outcome : ProbeOutcome) :
    (Bool × RunData) × TesterState :=
  match outcome with
  | .status code _ =>
    if code = 400 then
      ((true, .empty),
       { st with tests_run := st.tests_run + 1
                 tests_passed := st.tests_passed + 1 })
    else
      ((false, .empty),
       { st with tests_run := st.tests_run + 1
                 failed_tests := st.failed_tests ++
                  ["Invalid JSON Search: Expected 400, got " ++
                    toString code] })
  | .timeout =>
    ((false, .empty),
     { st with tests_run := st.tests_run + 1
               failed_tests := st.failed_tests ++
                ["Invalid JSON Search: Timeout"] })
  | .exn e =>
    ((false, .empty),
     { st with tests_run := st.tests_run + 1
               failed_tests := st.failed_tests ++
                ["Invalid JSON Search: " ++ e] })

/-- Whether one probe call observed exactly its expected status code. -/
def probePassed (expected : Nat) (o : ProbeOutcome) : Bool :=
  match o with
  | .status code _ => code == expected
  | _ => false

/-- The tester state after `main` has run its six probes, given the outcome
of each probe call.  The first five go through `run_test` (the extra JSON
inspection in `test_search_valid` touches no counter); the sixth is
`test_search_invalid_json`. -/
def mainFinalState (o1 o2 o3 o4 o5 o6 : ProbeOutcome) : TesterState :=
  let s1 := (run_test initialTester "Health Check" "GET" 200 o1).2
  let s2 := (run_test s1 "Search Status" "GET" 200 o2).2
  let s3 := (run_test s2 "Cache Statistics" "GET" 200 o3).2
  let s4 := (run_test s3 "Valid Search - Service Unavailable" "POST" 520 o4).2
  let s5 := (run_test s4 "Search with Empty Keywords" "POST" 400 o5).2
  (test_search_invalid_json s5 o6).2

/-- `main` returns `0 if tester.tests_passed == tester.tests_run else 1`,
and the process exits with that code. -/
def mainExitCode (o1 o2 o3 o4 o5 o6 : ProbeOutcome) : Nat :=
  let s := mainFinalState o1 o2 o3 o4 o5 o6
  if s.tests_passed = s.tests_run then 0 else 1

/-! ### Helper lemmas -/

theorem hasKey_append (d e : List (String × String)) (k : String) :
    hasKey (d ++ e) k = (hasKey d k || hasKey e k) := by
  simp [hasKey, List.any_append]

theorem dictInsert_of_fresh (d : List (String × String)) (k v : String)
    (h : hasKey d k = false) : dictInsert d k v = d ++ [(k, v)] := by
  simp [dictInsert, h]

theorem foldl_dictInsert_eq_append (q : List (String × String)) :
    ∀ d : List (String × String),
    (∀ kv ∈ q, hasKey d kv.1 = false) → (q.map Prod.fst).Nodup →
    q.foldl (fun d kv => dictInsert d kv.1 kv.2) d = d ++ q := by
  induction q with
  | nil => intro d _ _; simp
  | cons kv rest ih =>
    intro d hd hq
    have h1 : hasKey d kv.1 = false := hd kv (List.mem_cons_self _ _)
    have hq' : kv.1 ∉ rest.map Prod.fst ∧ (rest.map Prod.fst).Nodup := by
      simpa [List.nodup_cons] using hq
    rw [List.foldl_cons, dictInsert_of_fresh d kv.1 kv.2 h1]
    rw [ih (d ++ [(kv.1, kv.2)]) ?_ hq'.2]
    · simp
    · intro kv' hkv'
      have hd' : hasKey d kv'.1 = false := hd kv' (List.mem_cons_of_mem _ hkv')
      have hne : kv'.1 ≠ kv.1 := by
        intro hcontra
        exact hq'.1 (hcontra ▸ List.mem_map_of_mem Prod.fst hkv')
      rw [hasKey_append, hd']
      simp [hasKey, hne.symm]

theorem dictOfPairs_of_nodup_keys (q : List (String × String))
    (hq : (q.map Prod.fst).Nodup) : dictOfPairs q = q := by
  have h := foldl_dictInsert_eq_append q []
    (by intro kv _; rfl) hq
  simpa [dictOfPairs] using h

theorem proxy_log (upstream : OutboundRequest → UpstreamResult)
    (req : HttpRequest) : (proxy upstream req).2 = [buildOutboundRequest req] := by
  unfold proxy
  cases upstream (buildOutboundRequest req) <;> rfl

/-! ### Claims about the forwarder -/

/-- C1 fails as literally stated: the handler sends the query parameters
through Python `dict`, which collapses a repeated query key to its last
value.  For the inbound query string `a=1&a=2` the single outbound request
carries the query `a=2`, which differs from the inbound query string. -/
theorem C1_counterexample :
    ((proxy (fun _ => .connectError)
        { method := "GET", path := "api/search",
          queryParams := [("a", "1"), ("a", "2")],
          headers := [], body := "" }).2.map (fun o => o.params))
      = [[("a", "2")]] ∧
    [("a", "2")] ≠ [("a", "1"), ("a", "2")] := by
  exact ⟨rfl, by decide⟩

/-- C1 (amended): for every supported method M and inbound path P with query
string Q in which no parameter key repeats, one call to the handler issues
exactly one outbound request, to the fixed upstream origin, with method M,
path P and the same query string Q.  (When Q repeats a key, the outbound
query carries each key once with its last value.) -/
theorem C1_single_forwarded_request (upstream : OutboundRequest → UpstreamResult)
    (req : HttpRequest) (hm : req.method ∈ supportedMethods)
    (hq : (req.queryParams.map Prod.fst).Nodup) :
    (proxy upstream req).2 = [buildOutboundRequest req] ∧
    (buildOutboundRequest req).method = req.method ∧
    (buildOutboundRequest req).url = NEXTJS_URL ++ "/" ++ req.path ∧
    (buildOutboundRequest req).params = req.queryParams := by
  exact ⟨proxy_log upstream req, rfl, rfl, dictOfPairs_of_nodup_keys _ hq⟩

/-- C1 witness: a concrete GET request with a one-pair query string. -/
theorem C1_single_forwarded_request_witness :
    (proxy (fun _ => .connectError)
        { method := "GET", path := "api/health",
          queryParams := [("q", "x")], headers := [], body := "" }).2
      = [buildOutboundRequest
          { method := "GET", path := "api/health",
            queryParams := [("q", "x")], headers := [], body := "" }] ∧
    (buildOutboundRequest
        { method := "GET", path := "api/health",
          queryParams := [("q", "x")], headers := [], body := "" }).method
      = "GET" ∧
    (buildOutboundRequest
        { method := "GET", path := "api/health",
          queryParams := [("q", "x")], headers := [], body := "" }).url
      = NEXTJS_URL ++ "/" ++ "api/health" ∧
    (buildOutboundRequest
        { method := "GET", path := "api/health",
          queryParams := [("q", "x")], headers := [], body := "" }).params
      = [("q", "x")] :=
  C1_single_forwarded_request (fun _ => .connectError)
    { method := "GET", path := "api/health",
      queryParams := [("q", "x")], headers := [], body := "" }
    (by decide) (by decide)

/-- C2: when the upstream call returns a response, the handler returns the
upstream status code and the upstream body unchanged. -/
theorem C2_success_passthrough (upstream : OutboundRequest → UpstreamResult)
    (req : HttpRequest) (resp : UpstreamResponse)
    (h : upstream (buildOutboundRequest req) = .ok resp) :
    (proxy upstream req).1 = .ok (forwardResponse resp) ∧
    (forwardResponse resp).status_code = resp.status_code ∧
    (forwardResponse resp).body = resp.content := by
  refine ⟨?_, rfl, rfl⟩
  unfold proxy
  rw [h]

/-- C2 witness: a concrete 404 upstream response passes through. -/
theorem C2_success_passthrough_witness :
    (proxy (fun _ => .ok { status_code := 404, headers := [("content-type", "text/html")], content := "nope" })
        { method := "GET", path := "x", queryParams := [], headers := [], body := "" }).1
      = .ok (forwardResponse { status_code := 404, headers := [("content-type", "text/html")], content := "nope" }) ∧
    (forwardResponse { status_code := 404, headers := [("content-type", "text/html")], content := "nope" }).status_code = 404 ∧
    (forwardResponse { status_code := 404, headers := [("content-type", "text/html")], content := "nope" }).body = "nope" :=
  C2_success_passthrough
    (fun _ => .ok { status_code := 404, headers := [("content-type", "text/html")], content := "nope" })
    { method := "GET", path := "x", queryParams := [], headers := [], body := "" }
    { status_code := 404, headers := [("content-type", "text/html")], content := "nope" }
    rfl

/-- C3: whatever the inbound request, when the upstream connection is
refused the handler returns status 503 with the fixed JSON body
(error: "Next.js server not ready") and media type application/json, and
the call issues exactly one outbound attempt (no retry). -/
theorem C3_connect_refused_fixed_503 (upstream : OutboundRequest → UpstreamResult)
    (req : HttpRequest)
    (h : upstream (buildOutboundRequest req) = .connectError) :
    (proxy upstream req).1 = .ok notReadyResponse ∧
    notReadyResponse.status_code = 503 ∧
    notReadyResponse.body = "\x7b\"error\":\"Next.js server not ready\"\x7d" ∧
    notReadyResponse.mediaType = some "application/json" ∧
    (proxy upstream req).2.length = 1 := by
  refine ⟨?_, rfl, rfl, rfl, ?_⟩
  · unfold proxy
    rw [h]
  · rw [proxy_log]
    rfl

/-- C3 witness: a concrete POST with headers and body still gets the fixed
503 response. -/
theorem C3_connect_refused_fixed_503_witness :
    (proxy (fun _ => .connectError)
        { method := "POST", path := "api/search",
          queryParams := [("a", "1")],
          headers := [("host", "example.com"), ("content-type", "application/json")],
          body := "\x7b\"keywords\":\"laptop\"\x7d" }).1
      = .ok notReadyResponse ∧
    notReadyResponse.status_code = 503 ∧
    notReadyResponse.body = "\x7b\"error\":\"Next.js server not ready\"\x7d" ∧
    notReadyResponse.mediaType = some "application/json" ∧
    (proxy (fun _ => .connectError)
        { method := "POST", path := "api/search",
          queryParams := [("a", "1")],
          headers := [("host", "example.com"), ("content-type", "application/json")],
          body := "\x7b\"keywords\":\"laptop\"\x7d" }).2.length = 1 :=
  C3_connect_refused_fixed_503 (fun _ => .connectError)
    { method := "POST", path := "api/search",
      queryParams := [("a", "1")],
      headers := [("host", "example.com"), ("content-type", "application/json")],
      body := "\x7b\"keywords\":\"laptop\"\x7d" }
    rfl

/-- C4: the outbound header set is the inbound header mapping with the host
entry removed (so no host entry of the inbound request is ever forwarded),
and the outbound body is the inbound body unchanged. -/
theorem C4_host_stripped_body_forwarded (req : HttpRequest) :
    (buildOutboundRequest req).headers =
      req.headers.filter (fun kv => kv.1 != "host") ∧
    (buildOutboundRequest req).content = req.body ∧
    (buildOutboundRequest req).headers.all (fun kv => kv.1 != "host") = true := by
  refine ⟨rfl, rfl, ?_⟩
  rw [List.all_eq_true]
  intro kv hkv
  exact (List.mem_filter.mp hkv).2

/-- C5: a pair is among the returned response headers exactly when it is an
upstream response header whose lowercased name is none of transfer-encoding,
content-encoding, content-length; in particular no returned header name
case-insensitively equals one of these three, and every other upstream
header survives with its value unchanged. -/
theorem C5_response_header_filter (resp : UpstreamResponse) (kv : String × String) :
    kv ∈ (forwardResponse resp).headers ↔
      (kv ∈ resp.headers ∧ kv.1.toLower ≠ "transfer-encoding" ∧
       kv.1.toLower ≠ "content-encoding" ∧ kv.1.toLower ≠ "content-length") := by
  simp [forwardResponse, List.mem_filter, excluded_headers, and_assoc,
    not_or]

/-- C6: any upstream transport failure other than connection refused is not
mapped to a response; it propagates out of the handler unhandled. -/
theorem C6_other_transport_error_propagates
    (upstream : OutboundRequest → UpstreamResult) (req : HttpRequest) (e : String)
    (h : upstream (buildOutboundRequest req) = .transportError e) :
    (proxy upstream req).1 = .error e := by
  unfold proxy
  rw [h]

/-- C6 witness: a concrete timeout during the upstream call propagates. -/
theorem C6_other_transport_error_propagates_witness :
    (proxy (fun _ => .transportError "ReadTimeout")
        { method := "GET", path := "api/health",
          queryParams := [], headers := [], body := "" }).1
      = .error "ReadTimeout" :=
  C6_other_transport_error_propagates (fun _ => .transportError "ReadTimeout")
    { method := "GET", path := "api/health",
      queryParams := [], headers := [], body := "" }
    "ReadTimeout" rfl

/-! ### Helper lemmas for the probe script -/

theorem run_test_tests_run (st : TesterState) (n m : String) (e : Nat)
    (o : ProbeOutcome) :
    ((run_test st n m e o).2).tests_run = st.tests_run + 1 := by
  cases o <;> simp only [run_test] <;> split <;> (try split) <;> rfl

theorem run_test_tests_passed (st : TesterState) (n m : String) (e : Nat)
    (o : ProbeOutcome) (hm : probeMethods.contains m = true) :
    ((run_test st n m e o).2).tests_passed =
      st.tests_passed + (if probePassed e o = true then 1 else 0) := by
  have hm' : m ∈ probeMethods := by simpa using hm
  cases o with
  | status code js =>
    by_cases h : code = e <;> simp [run_test, hm', probePassed, h]
  | timeout => simp [run_test, hm', probePassed]
  | exn msg => simp [run_test, hm', probePassed]

theorem run_test_tests_passed_cases (st : TesterState) (n m : String) (e : Nat)
    (o : ProbeOutcome) :
    ((run_test st n m e o).2).tests_passed = st.tests_passed ∨
    ((run_test st n m e o).2).tests_passed = st.tests_passed + 1 := by
  by_cases hm : probeMethods.contains m = true
  · rw [run_test_tests_passed st n m e o hm]
    split
    · right; rfl
    · left; rfl
  · have hm' : ¬ m ∈ probeMethods := by simpa using hm
    cases o <;> simp [run_test, hm']

theorem invalid_json_tests_run (st : TesterState) (o : ProbeOutcome) :
    ((test_search_invalid_json st o).2).tests_run = st.tests_run + 1 := by
  cases o <;> simp only [test_search_invalid_json] <;> (try split) <;> rfl

theorem invalid_json_tests_passed (st : TesterState) (o : ProbeOutcome) :
    ((test_search_invalid_json st o).2).tests_passed =
      st.tests_passed + (if probePassed 400 o = true then 1 else 0) := by
  cases o with
  | status code js =>
    by_cases h : code = 400 <;> simp [test_search_invalid_json, probePassed, h]
  | timeout => simp [test_search_invalid_json, probePassed]
  | exn msg => simp [test_search_invalid_json, probePassed]

theorem sum_six_indicators (b1 b2 b3 b4 b5 b6 : Bool) :
    ((if b1 = true then 1 else 0) + (if b2 = true then 1 else 0) +
     (if b3 = true then 1 else 0) + (if b4 = true then 1 else 0) +
     (if b5 = true then 1 else 0) + (if b6 = true then 1 else 0) = 6) ↔
      (b1 = true ∧ b2 = true ∧ b3 = true ∧ b4 = true ∧ b5 = true ∧ b6 = true) := by
  cases b1 <;> cases b2 <;> cases b3 <;> cases b4 <;> cases b5 <;> cases b6 <;> simp

/-! ### Claims about the probe script -/

/-- C7: the exit code of `main` is 0 exactly when every one of the six
probes observed its expected status code, which is exactly when
`tests_passed` equals `tests_run` at the end. -/
theorem C7_exit_zero_iff_all_passed (o1 o2 o3 o4 o5 o6 : ProbeOutcome) :
    mainExitCode o1 o2 o3 o4 o5 o6 = 0 ↔
      (probePassed 200 o1 = true ∧ probePassed 200 o2 = true ∧
       probePassed 200 o3 = true ∧ probePassed 520 o4 = true ∧
       probePassed 400 o5 = true ∧ probePassed 400 o6 = true) := by
  have hG : probeMethods.contains "GET" = true := by decide
  have hP : probeMethods.contains "POST" = true := by decide
  unfold mainExitCode mainFinalState
  simp only [invalid_json_tests_passed, invalid_json_tests_run,
    run_test_tests_passed _ _ "GET" _ _ hG, run_test_tests_passed _ _ "POST" _ _ hP,
    run_test_tests_run, initialTester]
  rw [show (0:Nat) + 1 + 1 + 1 + 1 + 1 + 1 = 6 from rfl]
  rw [Nat.zero_add]
  constructor
  · intro h
    rw [← sum_six_indicators (probePassed 200 o1) (probePassed 200 o2)
      (probePassed 200 o3) (probePassed 520 o4) (probePassed 400 o5)
      (probePassed 400 o6)]
    by_contra hne
    rw [if_neg hne] at h
    exact one_ne_zero h
  · intro h
    rw [if_pos ((sum_six_indicators _ _ _ _ _ _).mpr h)]

/-- C8: for a probe whose observed status mismatches, times out, or raises,
`run_test` returns normally with success `False`, having recorded exactly
one new failed test case and counted the run; and the `main` sequence always
executes all six probes whatever each outcome is. -/
theorem C8_failure_recorded_sequence_continues (st : TesterState)
    (n m : String) (e : Nat) (o o1 o2 o3 o4 o5 o6 : ProbeOutcome)
    (hm : probeMethods.contains m = true)
    (hfail : probePassed e o = false) :
    (run_test st n m e o).1.1 = false ∧
    ((run_test st n m e o).2).failed_tests.length = st.failed_tests.length + 1 ∧
    ((run_test st n m e o).2).tests_run = st.tests_run + 1 ∧
    (mainFinalState o1 o2 o3 o4 o5 o6).tests_run = 6 := by
  have hm' : m ∈ probeMethods := by simpa using hm
  refine ⟨?_, ?_, run_test_tests_run st n m e o, ?_⟩
  · cases o with
    | status code js =>
      have h : ¬ code = e := by simpa [probePassed] using hfail
      simp [run_test, hm', h]
    | timeout => simp [run_test, hm']
    | exn msg => simp [run_test, hm']
  · cases o with
    | status code js =>
      have h : ¬ code = e := by simpa [probePassed] using hfail
      simp [run_test, hm', h]
    | timeout => simp [run_test, hm']
    | exn msg => simp [run_test, hm']
  · unfold mainFinalState
    simp only [invalid_json_tests_run, run_test_tests_run, initialTester]

/-- C8 witness: a timed-out health probe is recorded and the run goes on. -/
theorem C8_failure_recorded_sequence_continues_witness :
    (run_test initialTester "Health Check" "GET" 200 .timeout).1.1 = false ∧
    ((run_test initialTester "Health Check" "GET" 200 .timeout).2).failed_tests.length
      = initialTester.failed_tests.length + 1 ∧
    ((run_test initialTester "Health Check" "GET" 200 .timeout).2).tests_run
      = initialTester.tests_run + 1 ∧
    (mainFinalState .timeout .timeout .timeout .timeout .timeout .timeout).tests_run = 6 :=
  C8_failure_recorded_sequence_continues initialTester "Health Check" "GET" 200
    .timeout .timeout .timeout .timeout .timeout .timeout .timeout
    (by decide) (by decide)

/-- C9: for a method outside GET, POST, PUT, DELETE no request branch runs —
the result does not depend on the outcome of any call — and the unbound
`response` error is caught by the generic handler, so the call returns
`(False, empty)` and records one failed test instead of crashing. -/
theorem C9_unsupported_method_caught (st : TesterState) (n m : String)
    (e : Nat) (o o' : ProbeOutcome)
    (hm : probeMethods.contains m = false) :
    run_test st n m e o = run_test st n m e o' ∧
    (run_test st n m e o).1 = (false, RunData.empty) ∧
    ((run_test st n m e o).2).failed_tests.length = st.failed_tests.length + 1 := by
  have hm' : ¬ m ∈ probeMethods := by simpa using hm
  refine ⟨?_, ?_, ?_⟩ <;> cases o <;> cases o' <;> simp [run_test, hm']

/-- C9 witness: a PATCH probe is recorded as a failure, identically for two
different would-be outcomes. -/
theorem C9_unsupported_method_caught_witness :
    run_test initialTester "Patch Probe" "PATCH" 200 (.status 200 none)
      = run_test initialTester "Patch Probe" "PATCH" 200 .timeout ∧
    (run_test initialTester "Patch Probe" "PATCH" 200 (.status 200 none)).1
      = (false, RunData.empty) ∧
    ((run_test initialTester "Patch Probe" "PATCH" 200 (.status 200 none)).2).failed_tests.length
      = initialTester.failed_tests.length + 1 :=
  C9_unsupported_method_caught initialTester "Patch Probe" "PATCH" 200
    (.status 200 none) .timeout (by decide)

/-- C10: every `run_test` call, on every exit path, increments `tests_run`
by exactly one and `tests_passed` by at most one, so `tests_passed` stays at
most `tests_run`. -/
theorem C10_counter_invariant (st : TesterState) (n m : String) (e : Nat)
    (o : ProbeOutcome) (hinv : st.tests_passed ≤ st.tests_run) :
    ((run_test st n m e o).2).tests_run = st.tests_run + 1 ∧
    (((run_test st n m e o).2).tests_passed = st.tests_passed ∨
     ((run_test st n m e o).2).tests_passed = st.tests_passed + 1) ∧
    ((run_test st n m e o).2).tests_passed ≤ ((run_test st n m e o).2).tests_run := by
  refine ⟨run_test_tests_run st n m e o, run_test_tests_passed_cases st n m e o, ?_⟩
  rcases run_test_tests_passed_cases st n m e o with h | h <;>
    rw [h, run_test_tests_run st n m e o] <;> omega

/-- C10 witness: a passing GET probe from the initial state. -/
theorem C10_counter_invariant_witness :
    ((run_test initialTester "Health Check" "GET" 200 (.status 200 none)).2).tests_run
      = initialTester.tests_run + 1 ∧
    (((run_test initialTester "Health Check" "GET" 200 (.status 200 none)).2).tests_passed
        = initialTester.tests_passed ∨
     ((run_test initialTester "Health Check" "GET" 200 (.status 200 none)).2).tests_passed
        = initialTester.tests_passed + 1) ∧
    ((run_test initialTester "Health Check" "GET" 200 (.status 200 none)).2).tests_passed
      ≤ ((run_test initialTester "Health Check" "GET" 200 (.status 200 none)).2).tests_run :=
  C10_counter_invariant initialTester "Health Check" "GET" 200 (.status 200 none)
    (by decide)
